import Mathlib

/-!
Shallow embedding of the dual-backend VPN provisioning clients of this
repository: `vless_api.py` (3x-ui panel, "backend A"), `marzban_api.py`
(Marzban panel, "backend B") and the key-creation flow of `bot.py`.

Remote HTTP interactions are modelled by environments that supply, for each
attempted call, either a decoded response or a raised exception.  A raised
Python exception that escapes a function is modelled as `Except.error`.
-/

/-- Result of one remote call as seen by a Python `try` block: either a
decoded value or a raised exception (carrying its message). -/
inductive Outcome (α : Type) where
  | ok (a : α)
  | exn (e : String)
deriving DecidableEq

/-- Whether the outcome is a normal value. -/
def Outcome.isOk {α : Type} : Outcome α → Bool
  | .ok _ => true
  | .exn _ => false

/-- Model of Python `str.lower()`, character-wise case folding. -/
def strLower (s : String) : String := ⟨s.data.map Char.toLower⟩

/-- Helper for `strContains`, walking the character list of the scrutinee. -/
def strContainsAux (pat : List Char) : List Char → Bool
  | [] => List.isPrefixOf pat []
  | c :: cs => List.isPrefixOf pat (c :: cs) || strContainsAux pat cs

/-- Model of Python substring membership `pat in s`. -/
def strContains (s pat : String) : Bool := strContainsAux pat.data s.data

/-- Model of Python `str.startswith`. -/
def strStarts (s pre : String) : Bool := List.isPrefixOf pre.data s.data

/-- The decimal character of a digit `d < 10`. -/
def decDigitChar (d : ℕ) : Char := Char.ofNat (48 + d)

/-- Fuelled decimal digit list; with fuel `n + 1` it renders `n` exactly.
Structural recursion so the kernel can evaluate it. -/
def decDigitsAux : ℕ → ℕ → List Char
  | 0, _ => []
  | fuel + 1, n =>
    if n < 10 then [decDigitChar n] else decDigitsAux fuel (n / 10) ++ [decDigitChar (n % 10)]

/-- Model of Python `str(int)` for a natural number. -/
def decRepr (n : ℕ) : String := ⟨decDigitsAux (n + 1) n⟩

/-- Model of Python `sep.join(parts)`. -/
def joinWith (sep : String) : List String → String
  | [] => ""
  | [x] => x
  | x :: y :: ys => x ++ sep ++ joinWith sep (y :: ys)

/-- Characters after the first occurrence of `pat` (first half of
`split(pat)[1]`; the callers below then cut at the next `':'`, which also
stops before any later occurrence of `pat`). -/
def dropAfter (pat : List Char) : List Char → List Char
  | [] => []
  | c :: cs =>
    if List.isPrefixOf pat (c :: cs) then List.drop pat.length (c :: cs) else dropAfter pat cs

/-- The longest prefix not containing `':'` (models `split(":")[0]`). -/
def takeUntilColon : List Char → List Char
  | [] => []
  | c :: cs => if c = ':' then [] else c :: takeUntilColon cs

/-- `VLESS_PANEL_URL.split("://")[1].split(":")[0]` from `get_client_link`,
for a URL that does contain `"://"` (otherwise the Python code raises). -/
def serverAddrOf (u : String) : String := ⟨takeUntilColon (dropAfter "://".data u.data)⟩

/-! ## Backend A: `VlessClient` (3x-ui) -/

/-- Decoded `streamSettings` of an inbound, post-`json.loads`.  Fields are
optional, mirroring the dictionary `.get` defaults of `get_client_link`;
nested lookups are flattened (an absent inner dictionary behaves as an
absent leaf, which composes to the same default). -/
structure StreamSettings where
  network : Option String
  security : Option String
  wsPath : Option String
  wsHost : Option String
  grpcServiceName : Option String
  tcpHeaderType : Option String
  tlsServerName : Option String
  tlsFingerprint : Option String
  tlsAlpn : Option (List String)
  realityPublicKey : Option String
  realityFingerprint : Option String
  realityServerNames : Option (List String)
  realityShortIds : Option (List String)
  realitySpiderX : Option String
deriving DecidableEq

/-- The empty `streamSettings` dictionary (`json.loads("{}")`). -/
def emptyStream : StreamSettings :=
  ⟨none, none, none, none, none, none, none, none, none, none, none, none, none, none⟩

/-- An inbound object from the detail endpoint; only the fields read by
`get_client_link` are modelled. -/
structure Inbound where
  streamSettings : Option StreamSettings
  port : Option ℕ
  remark : Option String
deriving DecidableEq

/-- `result.get("obj", {})` when the `obj` key is absent. -/
def defaultInbound : Inbound := ⟨none, none, none⟩

/-- A decoded JSON response from the 3x-ui panel: `success` flag, optional
`msg`, optional `obj` payload. -/
structure VlessResp where
  success : Bool
  msg : Option String
  obj : Option Inbound
deriving DecidableEq

/-- Mutable state of a `VlessClient`: the stored session cookie. -/
structure VlessState where
  cookie : Option String
deriving DecidableEq

/-- Python truthiness of the stored cookie (`None` and `""` are falsy). -/
def cookieTruthy : Option String → Bool
  | none => false
  | some s => s != ""

/-- Environment for one `VlessClient._request` call: the outcomes of up to
two `login` calls and up to two HTTP attempts.  A login outcome is the pair
of the decoded `success` flag and the cookie the response carries. -/
structure VlessReqEnv where
  login1 : Outcome (Bool × Option String)
  login2 : Outcome (Bool × Option String)
  http1 : Outcome VlessResp
  http2 : Outcome VlessResp
deriving DecidableEq

/-- `VlessClient.login`: on a successful response store the extracted cookie
and return `True`; on a failure response or an exception return `False`
(the stored cookie is left unchanged). -/
def vlessLogin (b : Outcome (Bool × Option String)) (st : VlessState) : Bool × VlessState :=
  match b with
  | .exn _ => (false, st)
  | .ok (true, ck) => (true, { cookie := ck })
  | .ok (false, _) => (false, st)

/-- Message of the exception raised by `VlessClient._ensure_logged_in`. -/
def vlessAuthFailMsg : String := "Failed to authenticate with 3x-ui panel"

/-- Session-expiry detection in `VlessClient._request`:
`not result.get("success") and "login" in str(result.get("msg", "")).lower()`. -/
def vlessExpired (r : VlessResp) : Bool :=
  !r.success && strContains (strLower (r.msg.getD "")) "login"

/-- Observable outcome of one `_request` call: the returned value or raised
exception, the final client state, and how many `login` calls and HTTP
request attempts were performed. -/
structure VlessReqOut where
  res : Except String VlessResp
  st : VlessState
  logins : ℕ
  https : ℕ

/-- Body of `VlessClient._request` after `_ensure_logged_in` succeeded:
issue the request; on a session-expired reply discard the cookie, log in
exactly once more and retry exactly once, returning the retried response
whatever it is. -/
def vlessRequestBody (env : VlessReqEnv) (st : VlessState) (logins0 : ℕ) : VlessReqOut :=
  match env.http1 with
  | .exn e => ⟨.error e, st, logins0, 1⟩
  | .ok r1 =>
    if vlessExpired r1 then
      match vlessLogin env.login2 { cookie := none } with
      | (true, st2) =>
        match env.http2 with
        | .exn e => ⟨.error e, st2, logins0 + 1, 2⟩
        | .ok r2 => ⟨.ok r2, st2, logins0 + 1, 2⟩
      | (false, st2) => ⟨.error vlessAuthFailMsg, st2, logins0 + 1, 1⟩
    else ⟨.ok r1, st, logins0, 1⟩

/-- `VlessClient._request`: ensure a session (first `login` if the stored
cookie is falsy, raising on failure), then run `vlessRequestBody`.
`method` and `path` identify the endpoint; the responses come from `env`. -/
def vlessRequest (env : VlessReqEnv) (st : VlessState) (method path : String) : VlessReqOut :=
  if cookieTruthy st.cookie then vlessRequestBody env st 0
  else
    match vlessLogin env.login1 st with
    | (true, st1) => vlessRequestBody env st1 1
    | (false, st1) => ⟨.error vlessAuthFailMsg, st1, 1, 0⟩

/-- `total_gb * 1024 * 1024 * 1024 if total_gb > 0 else 0`
(line 116 of `vless_api.py`).  The GB value is rational because the bot
passes `0.5` for the trial plan. -/
def vlessTotalBytes (total_gb : ℚ) : ℚ :=
  if total_gb > 0 then total_gb * 1024 * 1024 * 1024 else 0

/-- `int((time.time() + expiry_days * 86400) * 1000)` (line 115 of
`vless_api.py`); `now` is the value of `time.time()`, nonnegative, so
Python `int` truncation is `⌊·⌋`. -/
def vlessExpiryTime (now : ℚ) (expiry_days : ℕ) : ℤ :=
  ⌊(now + (expiry_days : ℚ) * 86400) * 1000⌋

/-- The single client object inside the `client_settings` blob submitted by
`create_client`. -/
structure VlessClientPayload where
  id : String
  flow : String
  email : String
  limitIp : ℕ
  totalGB : ℚ
  expiryTime : ℤ
  enable : Bool
  tgId : String
  subId : String
  reset : ℕ
deriving DecidableEq

/-- The `clients` entry built by `create_client` (lines 118-133). -/
def vlessClientSettings (client_uuid email : String) (limit_ip : ℕ) (total_gb : ℚ)
    (expiry_days : ℕ) (now : ℚ) : VlessClientPayload :=
  { id := client_uuid
    flow := ""
    email := email
    limitIp := limit_ip
    totalGB := vlessTotalBytes total_gb
    expiryTime := vlessExpiryTime now expiry_days
    enable := true
    tgId := ""
    subId := ""
    reset := 0 }

/-- The outer `data` dictionary submitted to `/addClient`
(`json.dumps` of the settings is modelled as the structured value itself). -/
structure VlessCreateData where
  id : ℕ
  settings : VlessClientPayload
deriving DecidableEq

/-- The dictionary returned by `create_client`: either the success shape
carrying the generated UUID, or the failure shape carrying the error. -/
inductive VlessCreateResult where
  | ok (uuid : String) (email : String) (limit_ip : ℕ) (total_gb : ℚ) (expiry_days : ℕ)
  | fail (error : String)
deriving DecidableEq

/-- Outcome of `create_client`: result-or-exception, final state, and the
payload that was built for submission. -/
structure VlessCreateOut where
  res : Except String VlessCreateResult
  st : VlessState
  data : VlessCreateData

/-- Translation of the `/addClient` response into `create_client`'s return
value (lines 140-155): an exception passes through, a success reply yields
the success dictionary, a failure reply yields the failure dictionary. -/
def vlessCreateRes (client_uuid email : String) (limit_ip : ℕ) (total_gb : ℚ)
    (expiry_days : ℕ) : Except String VlessResp → Except String VlessCreateResult
  | .error e => .error e
  | .ok r =>
    if r.success then .ok (.ok client_uuid email limit_ip total_gb expiry_days)
    else .ok (.fail (r.msg.getD "Unknown error"))

/-- `VlessClient.create_client`.  `client_uuid` stands for the freshly
generated `uuid.uuid4()` and `now` for `time.time()`. -/
def vlessCreateClient (env : VlessReqEnv) (st : VlessState) (client_uuid email : String)
    (total_gb : ℚ) (expiry_days limit_ip inbound_id : ℕ) (now : ℚ) : VlessCreateOut :=
  let data : VlessCreateData :=
    { id := inbound_id
      settings := vlessClientSettings client_uuid email limit_ip total_gb expiry_days now }
  let o := vlessRequest env st "POST" "/addClient"
  ⟨vlessCreateRes client_uuid email limit_ip total_gb expiry_days o.res, o.st, data⟩

/-- Query-parameter list of the VLESS URI, exactly as accumulated by
`get_client_link` (lines 173-217 of `vless_api.py`). -/
def vlessUriParams (addr : String) (ss : StreamSettings) : List String :=
  let network := ss.network.getD "tcp"
  let security := ss.security.getD "none"
  let params := ["type=" ++ network, "security=" ++ security]
  let params :=
    if network = "ws" then
      params ++ ["path=" ++ ss.wsPath.getD "/", "host=" ++ ss.wsHost.getD addr]
    else if network = "grpc" then
      params ++ ["serviceName=" ++ ss.grpcServiceName.getD ""]
    else if network = "tcp" then
      params ++ ["headerType=" ++ ss.tcpHeaderType.getD "none"]
    else params
  if security = "tls" then
    let sni := ss.tlsServerName.getD addr
    let fp := ss.tlsFingerprint.getD ""
    let alpn := joinWith "," (ss.tlsAlpn.getD [])
    let params := params ++ ["sni=" ++ sni]
    let params := if fp != "" then params ++ ["fp=" ++ fp] else params
    if alpn != "" then params ++ ["alpn=" ++ alpn] else params
  else if security = "reality" then
    let pbk := ss.realityPublicKey.getD ""
    let fp := ss.realityFingerprint.getD "chrome"
    let sni := match ss.realityServerNames with
      | some (h :: _) => h
      | _ => ""
    let sid := match ss.realityShortIds with
      | some (h :: _) => h
      | _ => ""
    let spx := ss.realitySpiderX.getD ""
    let params := params ++ ["sni=" ++ sni, "fp=" ++ fp, "pbk=" ++ pbk]
    let params := if sid != "" then params ++ ["sid=" ++ sid] else params
    if spx != "" then params ++ ["spx=" ++ spx] else params
  else params

/-- Final URI assembly of `get_client_link` (lines 218-219). -/
def buildVlessUri (client_uuid addr : String) (inb : Inbound) : String :=
  let ss := inb.streamSettings.getD emptyStream
  let port := inb.port.getD 443
  let remark := inb.remark.getD "vless"
  "vless://" ++ client_uuid ++ "@" ++ addr ++ ":" ++ decRepr port ++ "?" ++
    joinWith "&" (vlessUriParams addr ss) ++ "#" ++ remark

/-- Outcome of `get_client_link`: `none` models the Python `None` return. -/
structure VlessLinkOut where
  res : Except String (Option String)
  st : VlessState

/-- Translation of the `/get/{inbound_id}` response into the link returned
by `get_client_link` (lines 162-221): a failure reply yields `None`, a
success reply yields the URI built from the fetched inbound. -/
def vlessLinkRes (panel_url client_uuid : String) :
    Except String VlessResp → Except String (Option String)
  | .error e => .error e
  | .ok r =>
    if r.success then
      .ok (some (buildVlessUri client_uuid (serverAddrOf panel_url) (r.obj.getD defaultInbound)))
    else .ok none

/-- `VlessClient.get_client_link`: fetch the inbound, return `None` if the
fetch reports failure, otherwise build the URI. -/
def vlessGetClientLink (panel_url : String) (env : VlessReqEnv) (st : VlessState)
    (client_uuid : String) (inbound_id : ℕ) : VlessLinkOut :=
  let o := vlessRequest env st "GET" ("/get/" ++ decRepr inbound_id)
  ⟨vlessLinkRes panel_url client_uuid o.res, o.st⟩

/-! ## Backend B: `MarzbanClient` (Marzban) -/

/-- One element of a protocol's inbound-tag list in the catalog: either a
plain string tag or a dictionary, modelled by whether it has a `"tag"` key. -/
inductive MTag where
  | str (v : String)
  | obj (tagKey : Option String)
deriving DecidableEq

/-- `tag.get("tag", tag) if isinstance(tag, dict) else tag`
(the normalisation applied to every inbound-tag element). -/
def tagVal : MTag → MTag
  | .str v => .str v
  | .obj (some t) => .str t
  | .obj none => .obj none

/-- The protocol catalog returned by `/inbounds`: an insertion-ordered
mapping from protocol name to its inbound-tag list. -/
abbrev MCatalog := List (String × List MTag)

/-- A decoded JSON body from the Marzban API.  A JSON object carries both
views the code reads from it: the protocol catalog (for `/inbounds`) and
the user fields (for `/user`); anything else fails `isinstance(_, dict)`. -/
inductive MData where
  | obj (catalog : MCatalog) (subscription_url : Option String) (links : Option (List String))
  | nondict
deriving DecidableEq

/-- Mutable state of a `MarzbanClient`: the stored bearer token. -/
structure MState where
  access_token : Option String
deriving DecidableEq

/-- Python truthiness of the stored token. -/
def tokenTruthy : Option String → Bool
  | none => false
  | some s => s != ""

/-- An HTTP response from the Marzban panel: status code, decoded JSON body
and raw text (used in error messages). -/
structure MResp where
  status : ℕ
  data : MData
  text : String
deriving DecidableEq

/-- Environment for one `MarzbanClient._request` call.  A login outcome is
the pair of the response status code and the `access_token` it carries. -/
structure MReqEnv where
  login1 : Outcome (ℕ × Option String)
  login2 : Outcome (ℕ × Option String)
  http1 : Outcome MResp
  http2 : Outcome MResp
deriving DecidableEq

/-- `MarzbanClient.login`: status 200 stores the token and returns `True`;
any other status or an exception returns `False`. -/
def marzbanLogin (b : Outcome (ℕ × Option String)) (st : MState) : Bool × MState :=
  match b with
  | .exn _ => (false, st)
  | .ok (status, tok) => if status == 200 then (true, { access_token := tok }) else (false, st)

/-- Message of the exception raised by `MarzbanClient._ensure_logged_in`. -/
def marzbanAuthFailMsg : String := "Failed to authenticate with Marzban panel"

/-- The dictionary `_request` wraps a final response in. -/
inductive MStdResult where
  | ok (data : MData)
  | fail (error : String)
deriving DecidableEq

/-- Final status check of `MarzbanClient._request` (lines 86-92). -/
def marzbanFinish (r : MResp) : MStdResult :=
  if r.status == 200 || r.status == 201 then .ok r.data
  else .fail ("HTTP " ++ decRepr r.status ++ ": " ++ r.text)

/-- Observable outcome of one Marzban `_request` call. -/
structure MReqOut where
  res : Except String MStdResult
  st : MState
  logins : ℕ
  https : ℕ

/-- Body of `MarzbanClient._request` after `_ensure_logged_in` succeeded:
issue the request; on a 401 drop the token, log in exactly once more and
retry exactly once; then wrap the status of the (possibly retried)
response — a second 401 falls through to the failure wrapper. -/
def marzbanRequestBody (env : MReqEnv) (st : MState) (logins0 : ℕ) : MReqOut :=
  match env.http1 with
  | .exn e => ⟨.error e, st, logins0, 1⟩
  | .ok r1 =>
    if r1.status == 401 then
      match marzbanLogin env.login2 { access_token := none } with
      | (true, st2) =>
        match env.http2 with
        | .exn e => ⟨.error e, st2, logins0 + 1, 2⟩
        | .ok r2 => ⟨.ok (marzbanFinish r2), st2, logins0 + 1, 2⟩
      | (false, st2) => ⟨.error marzbanAuthFailMsg, st2, logins0 + 1, 1⟩
    else ⟨.ok (marzbanFinish r1), st, logins0, 1⟩

/-- `MarzbanClient._request`: ensure a token, then run the body. -/
def marzbanRequest (env : MReqEnv) (st : MState) (method path : String) : MReqOut :=
  if tokenTruthy st.access_token then marzbanRequestBody env st 0
  else
    match marzbanLogin env.login1 st with
    | (true, st1) => marzbanRequestBody env st1 1
    | (false, st1) => ⟨.error marzbanAuthFailMsg, st1, 1, 0⟩

/-- Protocol-specific default settings objects of `create_user`
(lines 136, 142, 148, 154 of `marzban_api.py`). -/
inductive MProxyCfg where
  | ss
  | vless (flow : String)
  | vmess
  | trojan (password : String)
deriving DecidableEq

/-- The fixed known protocol set handled by `create_user`. -/
def marzbanKnown : List String := ["shadowsocks", "vless", "vmess", "trojan"]

/-- The default settings object a known protocol name is populated with. -/
def marzbanDefaultCfg : String → MProxyCfg
  | "vless" => .vless ""
  | "vmess" => .vmess
  | "trojan" => .trojan ""
  | _ => .ss

/-- Assignment `d[k] = v` on an insertion-ordered dictionary modelled as an
association list: replace in place if the key exists, else append. -/
def setEntry {α : Type} (l : List (String × α)) (k : String) (v : α) : List (String × α) :=
  if l.any (fun e => e.1 == k) then
    l.map (fun e => if e.1 == k then (k, v) else e)
  else l ++ [(k, v)]

/-- Keys of an association-list dictionary, in order. -/
def keysOf {α : Type} (l : List (String × α)) : List String := l.map Prod.fst

/-- One iteration of the `for protocol, tags in inbounds.items()` loop of
`create_user` (lines 133-158): the accumulator is the pair
`(proxies, inbound_config)`. -/
def marzbanStep (acc : List (String × MProxyCfg) × List (String × List MTag))
    (e : String × List MTag) : List (String × MProxyCfg) × List (String × List MTag) :=
  let protocol_lower := strLower e.1
  if protocol_lower = "shadowsocks" then
    (setEntry acc.1 "shadowsocks" MProxyCfg.ss, setEntry acc.2 "shadowsocks" (e.2.map tagVal))
  else if protocol_lower = "vless" then
    (setEntry acc.1 "vless" (MProxyCfg.vless ""), setEntry acc.2 "vless" (e.2.map tagVal))
  else if protocol_lower = "vmess" then
    (setEntry acc.1 "vmess" MProxyCfg.vmess, setEntry acc.2 "vmess" (e.2.map tagVal))
  else if protocol_lower = "trojan" then
    (setEntry acc.1 "trojan" (MProxyCfg.trojan ""), setEntry acc.2 "trojan" (e.2.map tagVal))
  else acc

/-- The `(proxies, inbound_config)` pair built from a protocol catalog,
including the shadowsocks-only fallback (lines 161-163). -/
def marzbanBuildFromCatalog (c : MCatalog) :
    List (String × MProxyCfg) × List (String × List MTag) :=
  let r := c.foldl marzbanStep ([], [])
  if r.1 = [] then ([("shadowsocks", MProxyCfg.ss)], []) else r

/-- The `(proxies, inbound_config)` pair from the `/inbounds` body: a
non-dictionary body skips the loop entirely and hits the fallback. -/
def marzbanBuildConfig : MData → List (String × MProxyCfg) × List (String × List MTag)
  | .obj c _ _ => marzbanBuildFromCatalog c
  | .nondict => marzbanBuildFromCatalog []

/-- `data_limit_gb * 1024 * 1024 * 1024 if data_limit_gb > 0 else 0`
(line 122 of `marzban_api.py`). -/
def marzbanDataLimitBytes (data_limit_gb : ℚ) : ℚ :=
  if data_limit_gb > 0 then data_limit_gb * 1024 * 1024 * 1024 else 0

/-- `int(time.time() + expiry_days * 86400)` (line 121 of `marzban_api.py`). -/
def marzbanExpire (now : ℚ) (expiry_days : ℕ) : ℤ :=
  ⌊now + (expiry_days : ℚ) * 86400⌋

/-- The `user_data` dictionary submitted to `POST /user` (lines 165-173). -/
structure MUserPayload where
  username : String
  proxies : List (String × MProxyCfg)
  inbounds : List (String × List MTag)
  expire : ℤ
  data_limit : ℚ
  data_limit_reset_strategy : String
  status : String
deriving DecidableEq

/-- Builds the `user_data` payload from the fetched `/inbounds` body. -/
def marzbanUserPayload (username : String) (data_limit_gb : ℚ) (expiry_days : ℕ)
    (now : ℚ) (inbs : MData) : MUserPayload :=
  let pc := marzbanBuildConfig inbs
  { username := username
    proxies := pc.1
    inbounds := pc.2
    expire := marzbanExpire now expiry_days
    data_limit := marzbanDataLimitBytes data_limit_gb
    data_limit_reset_strategy := "no_reset"
    status := "active" }

/-- The dictionary returned by `create_user`: success shape with the
subscription URL and links, or failure shape with the error. -/
inductive MCreateResult where
  | ok (username subscription_url : String) (links : List String)
      (data_limit_gb : ℚ) (expiry_days : ℕ) (expire : ℤ)
  | fail (error : String)
deriving DecidableEq

/-- Environment for one `create_user` call: one `_request` environment for
the `/inbounds` fetch and one for the `POST /user`. -/
structure MCreateEnv where
  inb : MReqEnv
  post : MReqEnv
deriving DecidableEq

/-- Outcome of `create_user`: result-or-exception, final state, and the
payload submitted to the panel (`none` if an exception fired before the
payload was built). -/
structure MCreateOut where
  res : Except String MCreateResult
  st : MState
  payload : Option MUserPayload

/-- `MarzbanClient.get_inbounds`: unwrap the data on success, return the
empty dictionary on a failure result, propagate exceptions. -/
def marzbanGetInbounds (env : MReqEnv) (st : MState) : Except String MData × MState :=
  let o := marzbanRequest env st "GET" "/inbounds"
  match o.res with
  | .error e => (.error e, o.st)
  | .ok (.ok d) => (.ok d, o.st)
  | .ok (.fail _) => (.ok (.obj [] none none), o.st)

/-- Normalisation of the subscription URL (lines 182-187):
`user_info.get("subscription_url", "")`, made absolute against the panel
base address when nonempty and relative. -/
def marzbanSubUrlOf (base_url : String) (su : Option String) : String :=
  let su0 := su.getD ""
  if su0 != "" && !(strStarts su0 "http") then base_url ++ su0 else su0

/-- Stands for the text of the `AttributeError` Python raises when the
success body of `POST /user` is not a JSON object and `user_info.get` is
called on it (line 182 of `marzban_api.py`). -/
def marzbanAttrErrMsg : String := "AttributeError: response body has no attribute get"

/-- Translation of the `POST /user` result into `create_user`'s return
value (lines 177-201).  On a success wrapper whose body is not a JSON
object, `user_info.get("subscription_url", "")` raises `AttributeError`,
which escapes `create_user`; modelled as `Except.error`. -/
def marzbanCreateRes (base_url username : String) (data_limit_gb : ℚ) (expiry_days : ℕ)
    (now : ℚ) : Except String MStdResult → Except String MCreateResult
  | .error e => .error e
  | .ok (.ok (.obj _ su ls)) =>
    .ok (.ok username (marzbanSubUrlOf base_url su) (ls.getD []) data_limit_gb expiry_days
      (marzbanExpire now expiry_days))
  | .ok (.ok .nondict) => .error marzbanAttrErrMsg
  | .ok (.fail e) => .ok (.fail e)

/-- `MarzbanClient.create_user`.  `now` stands for `time.time()`. -/
def marzbanCreateUser (base_url : String) (env : MCreateEnv) (st : MState)
    (username : String) (data_limit_gb : ℚ) (expiry_days : ℕ) (now : ℚ) : MCreateOut :=
  match marzbanGetInbounds env.inb st with
  | (.error e, st1) => ⟨.error e, st1, none⟩
  | (.ok inbs, st1) =>
    let payload := marzbanUserPayload username data_limit_gb expiry_days now inbs
    let o := marzbanRequest env.post st1 "POST" "/user"
    ⟨marzbanCreateRes base_url username data_limit_gb expiry_days now o.res, o.st, some payload⟩

/-! ## Bot layer (`bot.py`) -/

/-- The character class `[a-z0-9_]` kept by `sanitize_username`. -/
def allowedChar (c : Char) : Bool :=
  (decide ('a' ≤ c) && decide (c ≤ 'z')) ||
  (decide ('0' ≤ c) && decide (c ≤ '9')) || c == '_'

/-- `sanitize_username` from `bot.py` (lines 122-127): lowercase, strip
characters outside `[a-z0-9_]`, pad names shorter than 3 with `"_"` plus a
time-derived suffix, and clamp to 32 characters.  `now` stands for
`int(time.time())`. -/
def sanitize_username (name : String) (now : ℕ) : String :=
  let sanitized := (name.data.map Char.toLower).filter allowedChar
  let sanitized :=
    if sanitized.length < 3 then sanitized ++ ('_' :: (decRepr (now % 10000)).data)
    else sanitized
  ⟨sanitized.take 32⟩

/-- The data summary of `create_vless_key` / `create_outline_key`:
`"Unlimited" if data_gb == 0 else f"{int(data_gb * 1024)} MB"` (plan data
caps are nonnegative, so Python `int` truncation is `⌊·⌋`). -/
def dataTextOf (data_gb : ℚ) : String :=
  if data_gb = 0 then "Unlimited" else decRepr (⌊data_gb * 1024⌋).toNat ++ " MB"

/-- The fixed part of the success reply of `create_vless_key`
(lines 385-393 of `bot.py`). -/
def vlessSuccessBase (client_name plan_name : String) (devices : ℕ) (data_text : String)
    (expiry_days : ℕ) (uuid : String) : String :=
  "✅ **VLESS Key Created Successfully!**\n\n" ++
  "👤 **Client:** `" ++ client_name ++ "`\n" ++
  "📋 **Plan:** " ++ plan_name ++ "\n" ++
  "📱 **Devices:** " ++ decRepr devices ++ "\n" ++
  "📊 **Data:** " ++ data_text ++ "\n" ++
  "⏰ **Expiry:** " ++ decRepr expiry_days ++ " day(s)\n" ++
  "🔑 **UUID:** `" ++ uuid ++ "`\n"

/-- The link-dependent tail of the success reply (lines 395-401). -/
def vlessLinkSection : Option String → String
  | some l => "\n🔗 **Connection Link:**\n`" ++ l ++ "`"
  | none =>
    "\n⚠️ Could not auto-generate connection link. Use the UUID above in your VLESS client."

/-- Reply when the surrounding `try` caught an exception (lines 410-415). -/
def vlessErrText (e : String) : String := "❌ **Error creating VLESS key:**\n`" ++ e ++ "`"

/-- Reply when `create_client` returned a failure dictionary (lines 404-409). -/
def vlessFailText (e : String) : String :=
  "❌ **Failed to create VLESS key.**\nError: " ++ e

/-- The reply text built by `create_vless_key` from the outcomes of the two
client calls (the progress and menu messages around it are omitted).  An
exception from either call is caught by the surrounding `try` and rendered
as the error reply. -/
def vlessKeyMessage (cRes : Except String VlessCreateResult)
    (lRes : Except String (Option String)) (client_name plan_name : String)
    (devices : ℕ) (data_gb : ℚ) (expiry_days : ℕ) : String :=
  match cRes with
  | .error e => vlessErrText e
  | .ok (.fail err) => vlessFailText err
  | .ok (.ok uuid _ _ _ _) =>
    match lRes with
    | .error e => vlessErrText e
    | .ok lnk =>
      vlessSuccessBase client_name plan_name devices (dataTextOf data_gb) expiry_days uuid ++
        vlessLinkSection lnk

/-- Accumulated outcome of the key-creation loop of `create_outline_key`:
the per-item success results, the per-item error strings, and the final
client state. -/
structure OutlineBatchOut where
  created : List MCreateResult
  errors : List String
  st : MState

/-- The `for i in range(1, key_count + 1)` loop of `create_outline_key`
(lines 450-468 of `bot.py`), one sub-request per remaining key.  `envs i`
is the environment of key `i`'s `create_user` call; the client state
threads through all iterations.  An exception from one creation is caught
inside the loop and recorded, never aborting the remaining iterations. -/
def outlineLoopAux (base_url : String) (envs : ℕ → MCreateEnv) (data_gb : ℚ)
    (expiry_days : ℕ) (now : ℚ) (base_username : String) (key_count : ℕ) :
    ℕ → ℕ → MState → List MCreateResult → List String → OutlineBatchOut
  | _, 0, st, created, errors => ⟨created, errors, st⟩
  | i, remaining + 1, st, created, errors =>
    let current_username :=
      if key_count > 1 then base_username ++ "_" ++ decRepr i else base_username
    let o := marzbanCreateUser base_url (envs i) st current_username data_gb expiry_days now
    match o.res with
    | .error e =>
      outlineLoopAux base_url envs data_gb expiry_days now base_username key_count
        (i + 1) remaining o.st created (errors ++ ["Key " ++ decRepr i ++ ": " ++ e])
    | .ok (.fail err) =>
      outlineLoopAux base_url envs data_gb expiry_days now base_username key_count
        (i + 1) remaining o.st created (errors ++ ["Key " ++ decRepr i ++ ": " ++ err])
    | .ok r =>
      outlineLoopAux base_url envs data_gb expiry_days now base_username key_count
        (i + 1) remaining o.st (created ++ [r]) errors

/-- The whole batch of `create_outline_key`: `key_count` sequential,
independent `create_user` calls starting from key index 1. -/
def createOutlineKeys (base_url : String) (envs : ℕ → MCreateEnv) (st : MState)
    (base_username : String) (data_gb : ℚ) (expiry_days : ℕ) (now : ℚ)
    (key_count : ℕ) : OutlineBatchOut :=
  outlineLoopAux base_url envs data_gb expiry_days now base_username key_count
    1 key_count st [] []

/-! ## Helper lemmas -/

/-- String concatenation acts as list concatenation on the character data. -/
lemma strData_append (a b : String) : (a ++ b).data = a.data ++ b.data := rfl

/-- `pat` occurs contiguously inside `msg`. -/
def strHasSubstr (msg pat : String) : Prop :=
  ∃ pre post : List Char, msg.data = pre ++ (pat.data ++ post)

lemma strHasSubstr_self (s : String) : strHasSubstr s s :=
  ⟨[], [], by simp⟩

lemma strHasSubstr_appendL (s t pat : String) (h : strHasSubstr s pat) :
    strHasSubstr (s ++ t) pat := by
  obtain ⟨pre, post, hp⟩ := h
  exact ⟨pre, post ++ t.data, by simp [strData_append, hp]⟩

lemma strHasSubstr_appendR (s t pat : String) (h : strHasSubstr t pat) :
    strHasSubstr (s ++ t) pat := by
  obtain ⟨pre, post, hp⟩ := h
  exact ⟨s.data ++ pre, post, by simp [strData_append, hp]⟩

lemma allowed_digitChar (d : ℕ) (h : d < 10) : allowedChar (decDigitChar d) = true := by
  interval_cases d <;> decide

lemma allowed_decDigitsAux (fuel : ℕ) : ∀ (n : ℕ), ∀ c ∈ decDigitsAux fuel n, allowedChar c = true := by
  induction fuel with
  | zero => intro n c hc; simp [decDigitsAux] at hc
  | succ fuel ih =>
    intro n c hc
    rw [decDigitsAux] at hc
    by_cases h : n < 10
    · rw [if_pos h] at hc
      simp only [List.mem_singleton] at hc
      subst hc
      exact allowed_digitChar n h
    · rw [if_neg h] at hc
      rcases List.mem_append.mp hc with h1 | h1
      · exact ih _ c h1
      · simp only [List.mem_singleton] at h1
        subst h1
        exact allowed_digitChar _ (Nat.mod_lt _ (by norm_num))

/-- The payload built by `create_client` does not depend on the request
outcome, and is the one assembled at lines 114-138. -/
lemma vlessCreateClient_data (env : VlessReqEnv) (st : VlessState) (client_uuid email : String)
    (total_gb : ℚ) (expiry_days limit_ip inbound_id : ℕ) (now : ℚ) :
    (vlessCreateClient env st client_uuid email total_gb expiry_days limit_ip inbound_id now).data =
      ⟨inbound_id, vlessClientSettings client_uuid email limit_ip total_gb expiry_days now⟩ :=
  rfl

/-! ## C10 -/

/-- C10: for every input string, `sanitize_username` returns a string of
length at most 32 whose characters are only lowercase ASCII letters, digits
and underscore. -/
theorem c10_sanitize_username (name : String) (now : ℕ) :
    (sanitize_username name now).length ≤ 32 ∧
    (sanitize_username name now).data.all allowedChar = true := by
  constructor
  · show (List.take 32 _).length ≤ 32
    rw [List.length_take]
    exact min_le_left _ _
  · rw [List.all_eq_true]
    intro c hc
    have hc' := List.take_subset 32 _ hc
    have hmem : c ∈ (name.data.map Char.toLower).filter allowedChar ∨
        c ∈ '_' :: (decRepr (now % 10000)).data := by
      by_cases hlen : ((name.data.map Char.toLower).filter allowedChar).length < 3
      · rw [if_pos hlen] at hc'
        rcases List.mem_append.mp hc' with h | h
        · exact Or.inl h
        · exact Or.inr h
      · rw [if_neg hlen] at hc'
        exact Or.inl hc'
    rcases hmem with h | h
    · exact (List.mem_filter.mp h).2
    · rcases List.mem_cons.mp h with h | h
      · subst h; decide
      · exact allowed_decDigitsAux _ _ c h

/-! ## C3 -/

/-- C3: in both backends' outgoing creation payloads, a data cap of 0 maps
to the value 0 (unlimited), and every positive data cap of `gb` GB maps to
exactly `gb * 1024 ^ 3` bytes. -/
theorem c3_data_cap_mapping (gb now : ℚ) (client_uuid email username : String)
    (expiry_days limit_ip inbound_id : ℕ) (env : VlessReqEnv) (st : VlessState) (inbs : MData) :
    (vlessCreateClient env st client_uuid email gb expiry_days limit_ip inbound_id
        now).data.settings.totalGB = vlessTotalBytes gb ∧
    (marzbanUserPayload username gb expiry_days now inbs).data_limit = marzbanDataLimitBytes gb ∧
    vlessTotalBytes 0 = 0 ∧ marzbanDataLimitBytes 0 = 0 ∧
    (0 < gb → vlessTotalBytes gb = gb * 1024 ^ 3 ∧ marzbanDataLimitBytes gb = gb * 1024 ^ 3) := by
  refine ⟨rfl, rfl, by norm_num [vlessTotalBytes], by norm_num [marzbanDataLimitBytes], ?_⟩
  intro hpos
  simp only [vlessTotalBytes, marzbanDataLimitBytes, if_pos hpos]
  constructor <;> ring

/-- Witness for C3 at the concrete trial-plan cap of half a gigabyte. -/
theorem c3_data_cap_witness :
    vlessTotalBytes (1 / 2) = (1 / 2 : ℚ) * 1024 ^ 3 ∧
    marzbanDataLimitBytes (1 / 2) = (1 / 2 : ℚ) * 1024 ^ 3 :=
  (c3_data_cap_mapping (1 / 2) 0 "" "" "" 0 0 0
    ⟨.ok (true, none), .ok (true, none), .ok ⟨true, none, none⟩, .ok ⟨true, none, none⟩⟩
    ⟨none⟩ .nondict).2.2.2.2 (by norm_num)

/-! ## C4 -/

/-- C4: for every expiry-day count, backend A submits
`(now + d * 86400) * 1000` milliseconds since epoch and backend B submits
`now + d * 86400` seconds since epoch (`now` in whole seconds). -/
theorem c4_expiry_computation (now expiry_days : ℕ) (gb : ℚ) (client_uuid email username : String)
    (limit_ip inbound_id : ℕ) (env : VlessReqEnv) (st : VlessState) (inbs : MData) :
    (vlessCreateClient env st client_uuid email gb expiry_days limit_ip inbound_id
        (now : ℚ)).data.settings.expiryTime = (((now + expiry_days * 86400) * 1000 : ℕ) : ℤ) ∧
    (marzbanUserPayload username gb expiry_days (now : ℚ) inbs).expire =
      ((now + expiry_days * 86400 : ℕ) : ℤ) := by
  constructor
  · rw [vlessCreateClient_data]
    show vlessExpiryTime (now : ℚ) expiry_days = _
    rw [vlessExpiryTime,
      show ((now : ℚ) + (expiry_days : ℚ) * 86400) * 1000 =
        (((now + expiry_days * 86400) * 1000 : ℕ) : ℚ) by push_cast; ring,
      Int.floor_natCast]
  · show marzbanExpire (now : ℚ) expiry_days = _
    rw [marzbanExpire,
      show (now : ℚ) + (expiry_days : ℚ) * 86400 = ((now + expiry_days * 86400 : ℕ) : ℚ) by
        push_cast; ring,
      Int.floor_natCast]

/-! ## C5 -/

/-- C5: URI construction is deterministic and idempotent — two
`get_client_link` invocations whose inbound fetches return the same
response produce byte-identical URI results, independently of client state
and environment. -/
theorem c5_uri_deterministic (panel_url : String) (env env' : VlessReqEnv)
    (st st' : VlessState) (client_uuid : String) (inbound_id : ℕ)
    (h : (vlessRequest env st "GET" ("/get/" ++ decRepr inbound_id)).res =
      (vlessRequest env' st' "GET" ("/get/" ++ decRepr inbound_id)).res) :
    (vlessGetClientLink panel_url env st client_uuid inbound_id).res =
      (vlessGetClientLink panel_url env' st' client_uuid inbound_id).res := by
  show vlessLinkRes panel_url client_uuid _ = vlessLinkRes panel_url client_uuid _
  rw [h]

/-- Witness for C5: two runs from different session states over the same
fetched inbound yield the same link. -/
theorem c5_uri_deterministic_witness :
    (vlessGetClientLink "http://host:1200/p"
      ⟨.ok (true, some "c"), .ok (true, some "c"),
        .ok ⟨true, none, some ⟨some { emptyStream with network := some "ws" }, some 443, some "r"⟩⟩,
        .ok ⟨true, none, none⟩⟩
      ⟨some "a"⟩ "uuid-1" 1).res =
    (vlessGetClientLink "http://host:1200/p"
      ⟨.ok (true, some "c"), .ok (true, some "c"),
        .ok ⟨true, none, some ⟨some { emptyStream with network := some "ws" }, some 443, some "r"⟩⟩,
        .ok ⟨true, none, none⟩⟩
      ⟨some "b"⟩ "uuid-1" 1).res :=
  c5_uri_deterministic "http://host:1200/p" _ _ ⟨some "a"⟩ ⟨some "b"⟩ "uuid-1" 1 rfl

/-! ## C6 -/

/-- Claim-side description of the transport-specific query parameters:
websocket contributes path and host, grpc the service name, plain tcp the
header obfuscation type. -/
def transportParamsSpec (addr : String) (ss : StreamSettings) (network : String) : List String :=
  if network = "ws" then ["path=" ++ ss.wsPath.getD "/", "host=" ++ ss.wsHost.getD addr]
  else if network = "grpc" then ["serviceName=" ++ ss.grpcServiceName.getD ""]
  else if network = "tcp" then ["headerType=" ++ ss.tcpHeaderType.getD "none"]
  else []

/-- Claim-side description of the security-layer query parameters:
TLS contributes the SNI, then fingerprint and comma-joined ALPN only when
non-empty; Reality contributes the SNI (first configured server name), the
fingerprint (default `"chrome"` when unset), the public key, then short id
and spider-x only when non-empty. -/
def securityParamsSpec (addr : String) (ss : StreamSettings) (security : String) : List String :=
  if security = "tls" then
    let fp := ss.tlsFingerprint.getD ""
    let alpn := joinWith "," (ss.tlsAlpn.getD [])
    ["sni=" ++ ss.tlsServerName.getD addr] ++
      (if fp != "" then ["fp=" ++ fp] else []) ++
      (if alpn != "" then ["alpn=" ++ alpn] else [])
  else if security = "reality" then
    let sni := match ss.realityServerNames with
      | some (h :: _) => h
      | _ => ""
    let fp := ss.realityFingerprint.getD "chrome"
    let pbk := ss.realityPublicKey.getD ""
    let sid := match ss.realityShortIds with
      | some (h :: _) => h
      | _ => ""
    let spx := ss.realitySpiderX.getD ""
    ["sni=" ++ sni, "fp=" ++ fp, "pbk=" ++ pbk] ++
      (if sid != "" then ["sid=" ++ sid] else []) ++
      (if spx != "" then ["spx=" ++ spx] else [])
  else []

/-- Claim-side description of the full query-parameter list: transport type
first, then security type, then transport-specific and security-specific
parameters. -/
def vlessUriParamsSpec (addr : String) (ss : StreamSettings) : List String :=
  let network := ss.network.getD "tcp"
  let security := ss.security.getD "none"
  ["type=" ++ network, "security=" ++ security] ++
    transportParamsSpec addr ss network ++ securityParamsSpec addr ss security

/-- Claim-side description of the URI shape
`scheme://<uuid>@<host>:<port>?<ordered query params>#<tag>`. -/
def vlessUriSpecForm (client_uuid addr : String) (inb : Inbound) : String :=
  let ss := inb.streamSettings.getD emptyStream
  "vless://" ++ client_uuid ++ "@" ++ addr ++ ":" ++ decRepr (inb.port.getD 443) ++ "?" ++
    joinWith "&" (vlessUriParamsSpec addr ss) ++ "#" ++ inb.remark.getD "vless"

lemma vlessUriParams_eq_spec (addr : String) (ss : StreamSettings) :
    vlessUriParams addr ss = vlessUriParamsSpec addr ss := by
  simp only [vlessUriParams, vlessUriParamsSpec, transportParamsSpec, securityParamsSpec]
  split_ifs <;> simp [List.append_assoc]

/-- C6: for every credential id and inbound configuration, the built
backend-A URI has exactly the claimed shape
`vless://<uuid>@<host>:<port>?<ordered query params>#<tag>` with the
claimed parameter ordering and conditional parameters. -/
theorem c6_uri_exact_shape (client_uuid addr : String) (inb : Inbound) :
    buildVlessUri client_uuid addr inb = vlessUriSpecForm client_uuid addr inb := by
  simp only [buildVlessUri, vlessUriSpecForm, vlessUriParams_eq_spec]

/-! ## C1 -/

/-- A benign environment for one 3x-ui `_request`: logins succeed and the
HTTP transport returns responses instead of raising. -/
def vlessEnvOk (env : VlessReqEnv) : Prop :=
  (∃ ck, env.login1 = .ok (true, ck)) ∧ (∃ ck, env.login2 = .ok (true, ck)) ∧
  env.http1.isOk = true ∧ env.http2.isOk = true

/-- A benign environment for one Marzban `_request`. -/
def marzbanEnvOk (env : MReqEnv) : Prop :=
  (∃ tk, env.login1 = .ok (200, tk)) ∧ (∃ tk, env.login2 = .ok (200, tk)) ∧
  env.http1.isOk = true ∧ env.http2.isOk = true

lemma vlessRequestBody_ok (env : VlessReqEnv) (st : VlessState) (n : ℕ) (r1 r2 : VlessResp)
    (ck2 : Option String) (h2 : env.login2 = .ok (true, ck2)) (hh1 : env.http1 = .ok r1)
    (hh2 : env.http2 = .ok r2) : ∃ r, (vlessRequestBody env st n).res = .ok r := by
  by_cases he : vlessExpired r1
  · exact ⟨r2, by simp [vlessRequestBody, hh1, h2, hh2, vlessLogin, he]⟩
  · exact ⟨r1, by simp [vlessRequestBody, hh1, he]⟩

lemma vlessRequest_ok (env : VlessReqEnv) (st : VlessState) (method path : String)
    (h : vlessEnvOk env) : ∃ r, (vlessRequest env st method path).res = .ok r := by
  obtain ⟨⟨ck1, h1⟩, ⟨ck2, h2⟩, h3, h4⟩ := h
  cases hh1 : env.http1 with
  | exn e => rw [hh1] at h3; simp [Outcome.isOk] at h3
  | ok r1 =>
    cases hh2 : env.http2 with
    | exn e => rw [hh2] at h4; simp [Outcome.isOk] at h4
    | ok r2 =>
      by_cases hc : cookieTruthy st.cookie
      · rw [vlessRequest, if_pos hc]
        exact vlessRequestBody_ok env st 0 r1 r2 ck2 h2 hh1 hh2
      · rw [vlessRequest, if_neg hc, h1]
        simp only [vlessLogin]
        exact vlessRequestBody_ok env _ 1 r1 r2 ck2 h2 hh1 hh2

lemma marzbanRequestBody_ok (env : MReqEnv) (st : MState) (n : ℕ) (r1 r2 : MResp)
    (tk2 : Option String) (h2 : env.login2 = .ok (200, tk2)) (hh1 : env.http1 = .ok r1)
    (hh2 : env.http2 = .ok r2) : ∃ r, (marzbanRequestBody env st n).res = .ok r := by
  by_cases he : r1.status == 401
  · exact ⟨marzbanFinish r2, by simp [marzbanRequestBody, hh1, h2, hh2, marzbanLogin, he]⟩
  · exact ⟨marzbanFinish r1, by simp [marzbanRequestBody, hh1, he]⟩

lemma marzbanRequest_ok (env : MReqEnv) (st : MState) (method path : String)
    (h : marzbanEnvOk env) : ∃ r, (marzbanRequest env st method path).res = .ok r := by
  obtain ⟨⟨tk1, h1⟩, ⟨tk2, h2⟩, h3, h4⟩ := h
  cases hh1 : env.http1 with
  | exn e => rw [hh1] at h3; simp [Outcome.isOk] at h3
  | ok r1 =>
    cases hh2 : env.http2 with
    | exn e => rw [hh2] at h4; simp [Outcome.isOk] at h4
    | ok r2 =>
      by_cases hc : tokenTruthy st.access_token
      · rw [marzbanRequest, if_pos hc]
        exact marzbanRequestBody_ok env st 0 r1 r2 tk2 h2 hh1 hh2
      · rw [marzbanRequest, if_neg hc, h1]
        simp only [marzbanLogin]
        exact marzbanRequestBody_ok env ⟨tk1⟩ 1 r1 r2 tk2 h2 hh1 hh2

lemma marzbanGetInbounds_ok (env : MReqEnv) (st : MState) (h : marzbanEnvOk env) :
    ∃ d, (marzbanGetInbounds env st).1 = .ok d := by
  obtain ⟨s, hs⟩ := marzbanRequest_ok env st "GET" "/inbounds" h
  cases s with
  | ok d => exact ⟨d, by simp [marzbanGetInbounds, hs]⟩
  | fail e => exact ⟨.obj [] none none, by simp [marzbanGetInbounds, hs]⟩

/-- The decoded bodies a Marzban environment returns are JSON objects —
on a non-object success body of `POST /user`, Python raises
`AttributeError` at `user_info.get` and that exception escapes
`create_user`. -/
def marzbanDictBodies (env : MReqEnv) : Prop :=
  (∀ r, env.http1 = .ok r → r.data ≠ MData.nondict) ∧
  (∀ r, env.http2 = .ok r → r.data ≠ MData.nondict)

lemma marzbanRequestBody_finish (env : MReqEnv) (st : MState) (n : ℕ) (r1 r2 : MResp)
    (tk2 : Option String) (h2 : env.login2 = .ok (200, tk2)) (hh1 : env.http1 = .ok r1)
    (hh2 : env.http2 = .ok r2) :
    (marzbanRequestBody env st n).res = .ok (marzbanFinish r1) ∨
    (marzbanRequestBody env st n).res = .ok (marzbanFinish r2) := by
  by_cases he : r1.status == 401
  · exact Or.inr (by simp [marzbanRequestBody, hh1, h2, hh2, marzbanLogin, he])
  · exact Or.inl (by simp [marzbanRequestBody, hh1, he])

lemma marzbanRequest_finish (env : MReqEnv) (st : MState) (method path : String)
    (h : marzbanEnvOk env) :
    ∃ r, (env.http1 = .ok r ∨ env.http2 = .ok r) ∧
      (marzbanRequest env st method path).res = .ok (marzbanFinish r) := by
  obtain ⟨⟨tk1, h1⟩, ⟨tk2, h2⟩, h3, h4⟩ := h
  cases hh1 : env.http1 with
  | exn e => rw [hh1] at h3; simp [Outcome.isOk] at h3
  | ok r1 =>
    cases hh2 : env.http2 with
    | exn e => rw [hh2] at h4; simp [Outcome.isOk] at h4
    | ok r2 =>
      by_cases hc : tokenTruthy st.access_token
      · rcases marzbanRequestBody_finish env st 0 r1 r2 tk2 h2 hh1 hh2 with h | h
        · exact ⟨r1, Or.inl rfl, by rw [marzbanRequest, if_pos hc]; exact h⟩
        · exact ⟨r2, Or.inr rfl, by rw [marzbanRequest, if_pos hc]; exact h⟩
      · rcases marzbanRequestBody_finish env ⟨tk1⟩ 1 r1 r2 tk2 h2 hh1 hh2 with h | h
        · refine ⟨r1, Or.inl rfl, ?_⟩
          rw [marzbanRequest, if_neg hc, h1]
          simp only [marzbanLogin]
          exact h
        · refine ⟨r2, Or.inr rfl, ?_⟩
          rw [marzbanRequest, if_neg hc, h1]
          simp only [marzbanLogin]
          exact h

/-- C1 (amended): provided authentication succeeds, the HTTP transport
returns responses, and (for backend B) the creation-response bodies decode
to JSON objects, `create_client` and `create_user` return exactly one
success-or-failure result (never an exception); and the bot-level caller
renders any escaped exception as a failure reply, so the request is never
left unanswered. -/
theorem c1_single_result (env : VlessReqEnv) (st : VlessState) (client_uuid email : String)
    (total_gb : ℚ) (expiry_days limit_ip inbound_id : ℕ) (now : ℚ) (base_url : String)
    (menv : MCreateEnv) (mst : MState) (username : String) (data_limit_gb : ℚ)
    (mexpiry_days : ℕ) (mnow : ℚ) :
    (vlessEnvOk env → ∃ r,
      (vlessCreateClient env st client_uuid email total_gb expiry_days limit_ip inbound_id
        now).res = .ok r) ∧
    (marzbanEnvOk menv.inb → marzbanEnvOk menv.post → marzbanDictBodies menv.post → ∃ r,
      (marzbanCreateUser base_url menv mst username data_limit_gb mexpiry_days mnow).res =
        .ok r) ∧
    (∀ e lRes client_name plan_name devices data_gb ed,
      vlessKeyMessage (.error e) lRes client_name plan_name devices data_gb ed =
        vlessErrText e) := by
  refine ⟨?_, ?_, fun e lRes cn pn dv dg ed => rfl⟩
  · intro h
    obtain ⟨r, hr⟩ := vlessRequest_ok env st "POST" "/addClient" h
    show ∃ r', vlessCreateRes client_uuid email limit_ip total_gb expiry_days
      (vlessRequest env st "POST" "/addClient").res = .ok r'
    rw [hr]
    by_cases hs : r.success
    · exact ⟨.ok client_uuid email limit_ip total_gb expiry_days, by simp [vlessCreateRes, hs]⟩
    · exact ⟨.fail (r.msg.getD "Unknown error"), by simp [vlessCreateRes, hs]⟩
  · intro hinb hpost hdict
    obtain ⟨d, hd⟩ := marzbanGetInbounds_ok menv.inb mst hinb
    obtain ⟨r, hror, hs⟩ := marzbanRequest_finish menv.post (marzbanGetInbounds menv.inb mst).2
      "POST" "/user" hpost
    have hrd : r.data ≠ MData.nondict := by
      rcases hror with h | h
      · exact hdict.1 r h
      · exact hdict.2 r h
    rw [marzbanCreateUser]
    cases hgi : marzbanGetInbounds menv.inb mst with
    | mk fst snd =>
      rw [hgi] at hd hs
      cases fst with
      | error e => simp at hd
      | ok inbs =>
        simp only
        rw [hs]
        by_cases hst : (r.status == 200 || r.status == 201) = true
        · cases hdata : r.data with
          | obj cc su ls =>
            refine ⟨.ok username (marzbanSubUrlOf base_url su) (ls.getD []) data_limit_gb
              mexpiry_days (marzbanExpire mnow mexpiry_days), ?_⟩
            simp [marzbanCreateRes, marzbanFinish, hst, hdata]
          | nondict => exact absurd hdata hrd
        · refine ⟨.fail ("HTTP " ++ decRepr r.status ++ ": " ++ r.text), ?_⟩
          simp [marzbanCreateRes, marzbanFinish, hst]

/-- C1 counterexample: when panel authentication fails, `create_client`
raises an exception past the client boundary (modelled as `Except.error`)
instead of returning a success-or-failure result, contradicting the claim
as stated. -/
theorem c1_counterexample :
    (vlessCreateClient
      ⟨.ok (false, none), .ok (false, none), .ok ⟨true, none, none⟩, .ok ⟨true, none, none⟩⟩
      ⟨none⟩ "u" "client" 0 30 1 1 0).res = .error vlessAuthFailMsg := rfl

/-- Witness for the amended C1 on concrete benign environments, for both
backends. -/
theorem c1_single_result_witness :
    (∃ r, (vlessCreateClient
      ⟨.ok (true, some "c"), .ok (true, some "c"), .ok ⟨true, none, none⟩, .ok ⟨true, none, none⟩⟩
      ⟨none⟩ "u" "client" 0 30 1 1 0).res = .ok r) ∧
    (∃ r, (marzbanCreateUser "http://b"
      ⟨⟨.ok (200, some "t"), .ok (200, some "t"),
        .ok ⟨200, .obj [("shadowsocks", [MTag.str "SS"])] none none, ""⟩,
        .ok ⟨200, .obj [("shadowsocks", [MTag.str "SS"])] none none, ""⟩⟩,
      ⟨.ok (200, some "t"), .ok (200, some "t"),
        .ok ⟨200, .obj [] (some "/sub/u") (some ["ss://key"]), ""⟩,
        .ok ⟨200, .obj [] (some "/sub/u") (some ["ss://key"]), ""⟩⟩⟩
      ⟨none⟩ "user" 0 30 0).res = .ok r) := by
  have h := c1_single_result
    ⟨.ok (true, some "c"), .ok (true, some "c"), .ok ⟨true, none, none⟩, .ok ⟨true, none, none⟩⟩
    ⟨none⟩ "u" "client" 0 30 1 1 0 "http://b"
    ⟨⟨.ok (200, some "t"), .ok (200, some "t"),
      .ok ⟨200, .obj [("shadowsocks", [MTag.str "SS"])] none none, ""⟩,
      .ok ⟨200, .obj [("shadowsocks", [MTag.str "SS"])] none none, ""⟩⟩,
    ⟨.ok (200, some "t"), .ok (200, some "t"),
      .ok ⟨200, .obj [] (some "/sub/u") (some ["ss://key"]), ""⟩,
      .ok ⟨200, .obj [] (some "/sub/u") (some ["ss://key"]), ""⟩⟩⟩
    ⟨none⟩ "user" 0 30 0
  refine ⟨h.1 ⟨⟨some "c", rfl⟩, ⟨some "c", rfl⟩, rfl, rfl⟩, ?_⟩
  refine h.2.1 ⟨⟨some "t", rfl⟩, ⟨some "t", rfl⟩, rfl, rfl⟩
    ⟨⟨some "t", rfl⟩, ⟨some "t", rfl⟩, rfl, rfl⟩ ⟨?_, ?_⟩
  · intro r hr
    injection hr with hr'
    subst hr'
    decide
  · intro r hr
    injection hr with hr'
    subst hr'
    decide

/-! ## C2 -/

/-- C2: on either backend, a session-expired first response (a reply whose
failure message carries a login hint for backend A; HTTP 401 for backend B)
causes the stored session to be discarded and replaced by exactly one
re-authentication, and exactly one retry of the request; the retried
response is returned as-is, so a second consecutive expiry signal yields a
failure result without any further retry. -/
theorem c2_session_retry (env : VlessReqEnv) (st : VlessState) (r1 r2 : VlessResp)
    (ck : Option String) (client_uuid email : String) (total_gb : ℚ)
    (expiry_days limit_ip inbound_id : ℕ) (now : ℚ)
    (menv : MReqEnv) (mst : MState) (m1 m2 : MResp) (tk : Option String) :
    ((cookieTruthy st.cookie = true → env.http1 = .ok r1 → vlessExpired r1 = true →
      env.login2 = .ok (true, ck) → env.http2 = .ok r2 →
      (vlessRequest env st "POST" "/addClient").logins = 1 ∧
      (vlessRequest env st "POST" "/addClient").https = 2 ∧
      (vlessRequest env st "POST" "/addClient").res = .ok r2 ∧
      (vlessRequest env st "POST" "/addClient").st = ⟨ck⟩ ∧
      (vlessExpired r2 = true →
        (vlessCreateClient env st client_uuid email total_gb expiry_days limit_ip inbound_id
          now).res = .ok (.fail (r2.msg.getD "Unknown error"))))) ∧
    (tokenTruthy mst.access_token = true → menv.http1 = .ok m1 → m1.status = 401 →
      menv.login2 = .ok (200, tk) → menv.http2 = .ok m2 →
      (marzbanRequest menv mst "POST" "/user").logins = 1 ∧
      (marzbanRequest menv mst "POST" "/user").https = 2 ∧
      (marzbanRequest menv mst "POST" "/user").res = .ok (marzbanFinish m2) ∧
      (marzbanRequest menv mst "POST" "/user").st = ⟨tk⟩ ∧
      (m2.status = 401 →
        (marzbanRequest menv mst "POST" "/user").res =
          .ok (.fail ("HTTP 401: " ++ m2.text)))) := by
  constructor
  · intro hc h1 hexp hl2 h2
    have hreq : vlessRequest env st "POST" "/addClient" = ⟨.ok r2, ⟨ck⟩, 1, 2⟩ := by
      rw [vlessRequest, if_pos hc, vlessRequestBody, h1]
      simp only [hexp, if_true, hl2, vlessLogin, h2]
    refine ⟨by rw [hreq], by rw [hreq], by rw [hreq], by rw [hreq], ?_⟩
    intro hexp2
    have hs2 : r2.success = false := by
      have := hexp2
      simp only [vlessExpired, Bool.and_eq_true, Bool.not_eq_true'] at this
      exact this.1
    show vlessCreateRes client_uuid email limit_ip total_gb expiry_days
      (vlessRequest env st "POST" "/addClient").res = _
    rw [hreq]
    simp [vlessCreateRes, hs2]
  · intro hc h1 hst hl2 h2
    have hreq : marzbanRequest menv mst "POST" "/user" =
        ⟨.ok (marzbanFinish m2), ⟨tk⟩, 1, 2⟩ := by
      rw [marzbanRequest, if_pos hc, marzbanRequestBody, h1]
      simp only [hst, marzbanLogin, hl2, h2]
      rfl
    refine ⟨by rw [hreq], by rw [hreq], by rw [hreq], by rw [hreq], ?_⟩
    intro hst2
    rw [hreq]
    have : marzbanFinish m2 = .fail ("HTTP 401: " ++ m2.text) := by
      rw [marzbanFinish, hst2]
      rfl
    rw [this]

/-- Witness for C2: a concrete double-expiry run on both backends —
one re-login, one retry, and a failure result with no second retry. -/
theorem c2_session_retry_witness :
    ((vlessRequest
        ⟨.ok (true, some "c1"), .ok (true, some "c2"),
          .ok ⟨false, some "Invalid login session", none⟩,
          .ok ⟨false, some "please re-login", none⟩⟩
        ⟨some "ck"⟩ "POST" "/addClient").logins = 1 ∧
      (vlessRequest
        ⟨.ok (true, some "c1"), .ok (true, some "c2"),
          .ok ⟨false, some "Invalid login session", none⟩,
          .ok ⟨false, some "please re-login", none⟩⟩
        ⟨some "ck"⟩ "POST" "/addClient").https = 2 ∧
      (vlessCreateClient
        ⟨.ok (true, some "c1"), .ok (true, some "c2"),
          .ok ⟨false, some "Invalid login session", none⟩,
          .ok ⟨false, some "please re-login", none⟩⟩
        ⟨some "ck"⟩ "u" "client" 0 30 1 1 0).res = .ok (.fail "please re-login")) ∧
    ((marzbanRequest
        ⟨.ok (200, some "t1"), .ok (200, some "t2"),
          .ok ⟨401, .nondict, "unauth"⟩, .ok ⟨401, .nondict, "unauth"⟩⟩
        ⟨some "tk"⟩ "POST" "/user").https = 2 ∧
      (marzbanRequest
        ⟨.ok (200, some "t1"), .ok (200, some "t2"),
          .ok ⟨401, .nondict, "unauth"⟩, .ok ⟨401, .nondict, "unauth"⟩⟩
        ⟨some "tk"⟩ "POST" "/user").res = .ok (.fail "HTTP 401: unauth")) := by
  have h := c2_session_retry
    ⟨.ok (true, some "c1"), .ok (true, some "c2"),
      .ok ⟨false, some "Invalid login session", none⟩,
      .ok ⟨false, some "please re-login", none⟩⟩
    ⟨some "ck"⟩ ⟨false, some "Invalid login session", none⟩ ⟨false, some "please re-login", none⟩
    (some "c2") "u" "client" 0 30 1 1 0
    ⟨.ok (200, some "t1"), .ok (200, some "t2"),
      .ok ⟨401, .nondict, "unauth"⟩, .ok ⟨401, .nondict, "unauth"⟩⟩
    ⟨some "tk"⟩ ⟨401, .nondict, "unauth"⟩ ⟨401, .nondict, "unauth"⟩ (some "t2")
  have hv := h.1 rfl rfl (by decide) rfl rfl
  have hm := h.2 rfl rfl rfl rfl rfl
  exact ⟨⟨hv.1, hv.2.1, hv.2.2.2.2 (by decide)⟩, ⟨hm.2.1, hm.2.2.2.2 rfl⟩⟩

/-! ## C8 -/

lemma vlessSuccessBase_has_uuid (client_name plan_name : String) (devices : ℕ)
    (data_text : String) (expiry_days : ℕ) (uuid : String) :
    strHasSubstr (vlessSuccessBase client_name plan_name devices data_text expiry_days uuid)
      uuid := by
  unfold vlessSuccessBase
  exact strHasSubstr_appendL _ _ _ (strHasSubstr_appendR _ _ _ (strHasSubstr_self uuid))

/-- C8: when the inbound fetch behind `get_client_link` reports failure,
the builder returns no URI (`None`) rather than raising; and the caller's
success reply is unaffected — it still contains the created credential's
UUID, together with the could-not-generate warning. -/
theorem c8_link_failure_not_fatal (panel_url : String) (lenv : VlessReqEnv) (lst : VlessState)
    (r : VlessResp) (cenv : VlessReqEnv) (cst : VlessState) (rc : VlessResp)
    (client_uuid email client_name plan_name : String) (total_gb data_gb : ℚ)
    (expiry_days limit_ip inbound_id devices : ℕ) (now : ℚ)
    (h1 : (vlessRequest lenv lst "GET" ("/get/" ++ decRepr inbound_id)).res = .ok r)
    (h2 : r.success = false)
    (hc : (vlessRequest cenv cst "POST" "/addClient").res = .ok rc)
    (hcs : rc.success = true) :
    (vlessGetClientLink panel_url lenv lst client_uuid inbound_id).res = .ok none ∧
    (vlessCreateClient cenv cst client_uuid email total_gb expiry_days limit_ip inbound_id
        now).res = .ok (.ok client_uuid email limit_ip total_gb expiry_days) ∧
    strHasSubstr
      (vlessKeyMessage
        (vlessCreateClient cenv cst client_uuid email total_gb expiry_days limit_ip inbound_id
          now).res
        (vlessGetClientLink panel_url lenv lst client_uuid inbound_id).res
        client_name plan_name devices data_gb expiry_days)
      client_uuid := by
  have hlink : (vlessGetClientLink panel_url lenv lst client_uuid inbound_id).res = .ok none := by
    show vlessLinkRes panel_url client_uuid
      (vlessRequest lenv lst "GET" ("/get/" ++ decRepr inbound_id)).res = _
    rw [h1]
    simp [vlessLinkRes, h2]
  have hcreate : (vlessCreateClient cenv cst client_uuid email total_gb expiry_days limit_ip
      inbound_id now).res = .ok (.ok client_uuid email limit_ip total_gb expiry_days) := by
    show vlessCreateRes client_uuid email limit_ip total_gb expiry_days
      (vlessRequest cenv cst "POST" "/addClient").res = _
    rw [hc]
    simp [vlessCreateRes, hcs]
  refine ⟨hlink, hcreate, ?_⟩
  rw [hlink, hcreate]
  show strHasSubstr
    (vlessSuccessBase client_name plan_name devices (dataTextOf data_gb) expiry_days client_uuid
      ++ vlessLinkSection none) client_uuid
  exact strHasSubstr_appendL _ _ _
    (vlessSuccessBase_has_uuid client_name plan_name devices (dataTextOf data_gb) expiry_days
      client_uuid)

/-- Witness for C8: a concrete run where creation succeeds but the inbound
fetch is rejected — no URI, yet the reply still carries the UUID. -/
theorem c8_link_failure_witness :
    (vlessGetClientLink "http://host:1200/p"
      ⟨.ok (true, some "c"), .ok (true, some "c"), .ok ⟨false, some "not found", none⟩,
        .ok ⟨false, some "not found", none⟩⟩
      ⟨some "s"⟩ "uuid-xyz" 1).res = .ok none ∧
    (vlessCreateClient
      ⟨.ok (true, some "c"), .ok (true, some "c"), .ok ⟨true, none, none⟩,
        .ok ⟨true, none, none⟩⟩
      ⟨some "s"⟩ "uuid-xyz" "client" 0 30 1 1 0).res =
      .ok (.ok "uuid-xyz" "client" 1 0 30) ∧
    strHasSubstr
      (vlessKeyMessage
        (vlessCreateClient
          ⟨.ok (true, some "c"), .ok (true, some "c"), .ok ⟨true, none, none⟩,
            .ok ⟨true, none, none⟩⟩
          ⟨some "s"⟩ "uuid-xyz" "client" 0 30 1 1 0).res
        (vlessGetClientLink "http://host:1200/p"
          ⟨.ok (true, some "c"), .ok (true, some "c"), .ok ⟨false, some "not found", none⟩,
            .ok ⟨false, some "not found", none⟩⟩
          ⟨some "s"⟩ "uuid-xyz" 1).res
        "client" "Basic" 1 0 30)
      "uuid-xyz" :=
  c8_link_failure_not_fatal "http://host:1200/p"
    ⟨.ok (true, some "c"), .ok (true, some "c"), .ok ⟨false, some "not found", none⟩,
      .ok ⟨false, some "not found", none⟩⟩
    ⟨some "s"⟩ ⟨false, some "not found", none⟩
    ⟨.ok (true, some "c"), .ok (true, some "c"), .ok ⟨true, none, none⟩,
      .ok ⟨true, none, none⟩⟩
    ⟨some "s"⟩ ⟨true, none, none⟩
    "uuid-xyz" "client" "client" "Basic" 0 0 30 1 1 1 0 rfl rfl rfl rfl

/-! ## C7 -/

lemma keysOf_setEntry {α : Type} (l : List (String × α)) (k : String) (v : α) (p : String) :
    p ∈ keysOf (setEntry l k v) ↔ p ∈ keysOf l ∨ p = k := by
  unfold setEntry keysOf
  by_cases h : l.any (fun e => e.1 == k)
  · rw [if_pos h]
    have hk : k ∈ l.map Prod.fst := by
      rcases List.any_eq_true.mp h with ⟨e, he, hek⟩
      exact List.mem_map.mpr ⟨e, he, by simpa using hek⟩
    have hmap : (l.map (fun e => if e.1 == k then (k, v) else e)).map Prod.fst =
        l.map Prod.fst := by
      rw [List.map_map]
      refine List.map_congr_left ?_
      intro e _
      by_cases hek : e.1 == k
      · simp only [Function.comp, hek, if_pos]
        exact (by simpa using hek : e.1 = k).symm
      · simp [Function.comp, hek]
    rw [hmap]
    constructor
    · exact Or.inl
    · rintro (hp | rfl)
      · exact hp
      · exact hk
  · rw [if_neg h, List.map_append]
    simp

lemma mem_setEntry {α : Type} (l : List (String × α)) (k : String) (v : α)
    (x : String × α) (hx : x ∈ setEntry l k v) : x ∈ l ∨ x = (k, v) := by
  unfold setEntry at hx
  by_cases h : l.any (fun e => e.1 == k)
  · rw [if_pos h] at hx
    rcases List.mem_map.mp hx with ⟨e, he, hfe⟩
    by_cases hek : e.1 == k
    · rw [if_pos hek] at hfe
      exact Or.inr hfe.symm
    · rw [if_neg hek] at hfe
      exact Or.inl (hfe ▸ he)
  · rw [if_neg h] at hx
    rcases List.mem_append.mp hx with h1 | h1
    · exact Or.inl h1
    · simp only [List.mem_singleton] at h1
      exact Or.inr h1

lemma keys_marzbanFold (c : MCatalog) :
    ∀ (acc : List (String × MProxyCfg) × List (String × List MTag)) (p : String),
      p ∈ keysOf (c.foldl marzbanStep acc).1 ↔
        p ∈ keysOf acc.1 ∨ (p ∈ marzbanKnown ∧ ∃ e ∈ c, strLower e.1 = p) := by
  induction c with
  | nil => intro acc p; simp
  | cons hd tl ih =>
    intro acc p
    rw [List.foldl_cons, ih]
    have hstep : p ∈ keysOf (marzbanStep acc hd).1 ↔
        p ∈ keysOf acc.1 ∨ (p ∈ marzbanKnown ∧ strLower hd.1 = p) := by
      simp only [marzbanStep]
      split_ifs with h1 h2 h3 h4
      · rw [show (setEntry acc.1 "shadowsocks" MProxyCfg.ss,
            setEntry acc.2 "shadowsocks" (hd.2.map tagVal)).1 =
            setEntry acc.1 "shadowsocks" MProxyCfg.ss from rfl, keysOf_setEntry, h1]
        constructor
        · rintro (h | rfl)
          · exact Or.inl h
          · exact Or.inr ⟨by decide, rfl⟩
        · rintro (h | ⟨-, rfl⟩)
          · exact Or.inl h
          · exact Or.inr rfl
      · rw [show (setEntry acc.1 "vless" (MProxyCfg.vless ""),
            setEntry acc.2 "vless" (hd.2.map tagVal)).1 =
            setEntry acc.1 "vless" (MProxyCfg.vless "") from rfl, keysOf_setEntry, h2]
        constructor
        · rintro (h | rfl)
          · exact Or.inl h
          · exact Or.inr ⟨by decide, rfl⟩
        · rintro (h | ⟨-, rfl⟩)
          · exact Or.inl h
          · exact Or.inr rfl
      · rw [show (setEntry acc.1 "vmess" MProxyCfg.vmess,
            setEntry acc.2 "vmess" (hd.2.map tagVal)).1 =
            setEntry acc.1 "vmess" MProxyCfg.vmess from rfl, keysOf_setEntry, h3]
        constructor
        · rintro (h | rfl)
          · exact Or.inl h
          · exact Or.inr ⟨by decide, rfl⟩
        · rintro (h | ⟨-, rfl⟩)
          · exact Or.inl h
          · exact Or.inr rfl
      · rw [show (setEntry acc.1 "trojan" (MProxyCfg.trojan ""),
            setEntry acc.2 "trojan" (hd.2.map tagVal)).1 =
            setEntry acc.1 "trojan" (MProxyCfg.trojan "") from rfl, keysOf_setEntry, h4]
        constructor
        · rintro (h | rfl)
          · exact Or.inl h
          · exact Or.inr ⟨by decide, rfl⟩
        · rintro (h | ⟨-, rfl⟩)
          · exact Or.inl h
          · exact Or.inr rfl
      · constructor
        · exact Or.inl
        · rintro (h | ⟨hk, rfl⟩)
          · exact h
          · simp only [marzbanKnown, List.mem_cons, List.mem_singleton] at hk
            rcases hk with h' | h' | h' | h' | h'
            · exact absurd h' h1
            · exact absurd h' h2
            · exact absurd h' h3
            · exact absurd h' h4
            · simp at h'
    rw [hstep]
    constructor
    · rintro ((hp | ⟨hk, hl⟩) | ⟨hk, e, he, hl⟩)
      · exact Or.inl hp
      · exact Or.inr ⟨hk, hd, List.mem_cons_self hd tl, hl⟩
      · exact Or.inr ⟨hk, e, List.mem_cons_of_mem hd he, hl⟩
    · rintro (hp | ⟨hk, e, he, hl⟩)
      · exact Or.inl (Or.inl hp)
      · rcases List.mem_cons.mp he with rfl | he'
        · exact Or.inl (Or.inr ⟨hk, hl⟩)
        · exact Or.inr ⟨hk, e, he', hl⟩

lemma val_marzbanFold (c : MCatalog) :
    ∀ (acc : List (String × MProxyCfg) × List (String × List MTag)),
      (∀ pr ∈ acc.1, pr.2 = marzbanDefaultCfg pr.1) →
      ∀ pr ∈ (c.foldl marzbanStep acc).1, pr.2 = marzbanDefaultCfg pr.1 := by
  induction c with
  | nil => intro acc h; simpa using h
  | cons hd tl ih =>
    intro acc hacc
    rw [List.foldl_cons]
    apply ih
    intro pr hpr
    simp only [marzbanStep] at hpr
    split_ifs at hpr with h1 h2 h3 h4
    · rcases mem_setEntry acc.1 "shadowsocks" MProxyCfg.ss pr hpr with h | h
      · exact hacc pr h
      · rw [h]; rfl
    · rcases mem_setEntry acc.1 "vless" (MProxyCfg.vless "") pr hpr with h | h
      · exact hacc pr h
      · rw [h]; rfl
    · rcases mem_setEntry acc.1 "vmess" MProxyCfg.vmess pr hpr with h | h
      · exact hacc pr h
      · rw [h]; rfl
    · rcases mem_setEntry acc.1 "trojan" (MProxyCfg.trojan "") pr hpr with h | h
      · exact hacc pr h
      · rw [h]; rfl
    · exact hacc pr hpr

/-- First value bound to key `k` in an insertion-ordered dictionary
modelled as an association list (Python `d[k]`, as an `Option`). -/
def lookupKey {α : Type} (k : String) : List (String × α) → Option α
  | [] => none
  | e :: es => if e.1 = k then some e.2 else lookupKey k es

lemma lookupKey_map_set_ne {α : Type} (l : List (String × α)) (k k' : String) (v : α)
    (hne : k' ≠ k) :
    lookupKey k' (l.map (fun e => if e.1 == k then (k, v) else e)) = lookupKey k' l := by
  induction l with
  | nil => rfl
  | cons hd tl ih =>
    simp only [List.map_cons]
    by_cases h1 : hd.1 == k
    · have hk : hd.1 = k := by simpa using h1
      rw [if_pos h1, lookupKey, lookupKey, if_neg (fun hh => hne hh.symm),
        if_neg (by rw [hk]; exact fun hh => hne hh.symm), ih]
    · rw [if_neg h1, lookupKey, lookupKey]
      by_cases h2 : hd.1 = k'
      · rw [if_pos h2, if_pos h2]
      · rw [if_neg h2, if_neg h2, ih]

lemma lookupKey_map_set_eq {α : Type} (l : List (String × α)) (k : String) (v : α)
    (hmem : l.any (fun e => e.1 == k) = true) :
    lookupKey k (l.map (fun e => if e.1 == k then (k, v) else e)) = some v := by
  induction l with
  | nil => simp at hmem
  | cons hd tl ih =>
    simp only [List.map_cons]
    by_cases h1 : hd.1 == k
    · rw [if_pos h1]
      simp [lookupKey]
    · rw [if_neg h1]
      have h2 : hd.1 ≠ k := by simpa using h1
      rw [lookupKey, if_neg h2]
      apply ih
      rw [List.any_cons] at hmem
      rcases Bool.or_eq_true_iff.mp hmem with h | h
      · exact absurd h h1
      · exact h

lemma lookupKey_append_not_mem {α : Type} (l : List (String × α)) (k : String) (v : α)
    (h : l.any (fun e => e.1 == k) = false) (k' : String) :
    lookupKey k' (l ++ [(k, v)]) = if k' = k then some v else lookupKey k' l := by
  induction l with
  | nil =>
    show lookupKey k' [(k, v)] = if k' = k then some v else lookupKey k' []
    by_cases hk : k' = k
    · rw [if_pos hk, lookupKey, if_pos hk.symm]
    · rw [if_neg hk]
      simp only [lookupKey]
      rw [if_neg (fun hh : k = k' => hk hh.symm)]
  | cons hd tl ih =>
    rw [List.any_cons, Bool.or_eq_false_iff] at h
    rw [List.cons_append, lookupKey]
    by_cases h2 : hd.1 = k'
    · have hne : k' ≠ k := by
        intro hh
        rw [hh] at h2
        exact absurd (beq_iff_eq.mpr h2) (by simp [h.1])
      rw [if_pos h2, if_neg hne, lookupKey, if_pos h2]
    · rw [if_neg h2, ih h.2]
      by_cases hk : k' = k
      · rw [if_pos hk, if_pos hk]
      · rw [if_neg hk, if_neg hk, lookupKey, if_neg h2]

lemma lookupKey_setEntry {α : Type} (l : List (String × α)) (k k' : String) (v : α) :
    lookupKey k' (setEntry l k v) = if k' = k then some v else lookupKey k' l := by
  unfold setEntry
  by_cases h : l.any (fun e => e.1 == k)
  · rw [if_pos h]
    by_cases hk : k' = k
    · rw [if_pos hk, hk]
      exact lookupKey_map_set_eq l k v h
    · rw [if_neg hk]
      exact lookupKey_map_set_ne l k k' v hk
  · rw [if_neg h]
    refine lookupKey_append_not_mem l k v ?_ k'
    simp only [Bool.not_eq_true] at h
    exact h

/-- Claim-side description of the inbound tags recorded for a protocol
`p`: the tag list of the last catalog entry whose lower-cased name is `p`
(dictionary assignment overwrites), normalised entry-wise by `tagVal`;
`none` when no entry matches.  `acc` carries the best match so far. -/
def lastTagsForAux (p : String) (acc : Option (List MTag)) : MCatalog → Option (List MTag)
  | [] => acc
  | e :: es => lastTagsForAux p (if strLower e.1 = p then some (e.2.map tagVal) else acc) es

lemma lastTagsForAux_const (p : String) (c : MCatalog) :
    ∀ acc0 : Option (List MTag), (∀ e ∈ c, strLower e.1 ≠ p) →
      lastTagsForAux p acc0 c = acc0 := by
  induction c with
  | nil => intro acc0 _; rfl
  | cons hd tl ih =>
    intro acc0 h
    show lastTagsForAux p (if strLower hd.1 = p then some (hd.2.map tagVal) else acc0) tl = acc0
    rw [if_neg (h hd (List.mem_cons_self hd tl))]
    exact ih acc0 (fun e he => h e (List.mem_cons_of_mem hd he))

lemma lookupKey_marzbanFold (c : MCatalog) :
    ∀ (acc : List (String × MProxyCfg) × List (String × List MTag)) (p : String),
      p ∈ marzbanKnown →
      lookupKey p (c.foldl marzbanStep acc).2 = lastTagsForAux p (lookupKey p acc.2) c := by
  induction c with
  | nil => intro acc p _; rfl
  | cons hd tl ih =>
    intro acc p hp
    rw [List.foldl_cons, ih _ p hp]
    have hstep : lookupKey p (marzbanStep acc hd).2 =
        if strLower hd.1 = p then some (hd.2.map tagVal) else lookupKey p acc.2 := by
      by_cases hmatch : strLower hd.1 = p
      · rw [if_pos hmatch]
        simp only [marzbanKnown, List.mem_cons, List.mem_singleton] at hp
        simp only [marzbanStep]
        rcases hp with h' | h' | h' | h' | h'
        · rw [if_pos (hmatch.trans h'),
            show (setEntry acc.1 "shadowsocks" MProxyCfg.ss,
              setEntry acc.2 "shadowsocks" (hd.2.map tagVal)).2 =
              setEntry acc.2 "shadowsocks" (hd.2.map tagVal) from rfl,
            lookupKey_setEntry, if_pos h']
        · rw [if_neg (by rw [hmatch.trans h']; decide), if_pos (hmatch.trans h'),
            show (setEntry acc.1 "vless" (MProxyCfg.vless ""),
              setEntry acc.2 "vless" (hd.2.map tagVal)).2 =
              setEntry acc.2 "vless" (hd.2.map tagVal) from rfl,
            lookupKey_setEntry, if_pos h']
        · rw [if_neg (by rw [hmatch.trans h']; decide), if_neg (by rw [hmatch.trans h']; decide),
            if_pos (hmatch.trans h'),
            show (setEntry acc.1 "vmess" MProxyCfg.vmess,
              setEntry acc.2 "vmess" (hd.2.map tagVal)).2 =
              setEntry acc.2 "vmess" (hd.2.map tagVal) from rfl,
            lookupKey_setEntry, if_pos h']
        · rw [if_neg (by rw [hmatch.trans h']; decide), if_neg (by rw [hmatch.trans h']; decide),
            if_neg (by rw [hmatch.trans h']; decide), if_pos (hmatch.trans h'),
            show (setEntry acc.1 "trojan" (MProxyCfg.trojan ""),
              setEntry acc.2 "trojan" (hd.2.map tagVal)).2 =
              setEntry acc.2 "trojan" (hd.2.map tagVal) from rfl,
            lookupKey_setEntry, if_pos h']
        · simp at h'
      · rw [if_neg hmatch]
        simp only [marzbanStep]
        split_ifs with h1 h2 h3 h4
        · rw [show (setEntry acc.1 "shadowsocks" MProxyCfg.ss,
              setEntry acc.2 "shadowsocks" (hd.2.map tagVal)).2 =
              setEntry acc.2 "shadowsocks" (hd.2.map tagVal) from rfl,
            lookupKey_setEntry, if_neg (fun hh => hmatch (h1.trans hh.symm))]
        · rw [show (setEntry acc.1 "vless" (MProxyCfg.vless ""),
              setEntry acc.2 "vless" (hd.2.map tagVal)).2 =
              setEntry acc.2 "vless" (hd.2.map tagVal) from rfl,
            lookupKey_setEntry, if_neg (fun hh => hmatch (h2.trans hh.symm))]
        · rw [show (setEntry acc.1 "vmess" MProxyCfg.vmess,
              setEntry acc.2 "vmess" (hd.2.map tagVal)).2 =
              setEntry acc.2 "vmess" (hd.2.map tagVal) from rfl,
            lookupKey_setEntry, if_neg (fun hh => hmatch (h3.trans hh.symm))]
        · rw [show (setEntry acc.1 "trojan" (MProxyCfg.trojan ""),
              setEntry acc.2 "trojan" (hd.2.map tagVal)).2 =
              setEntry acc.2 "trojan" (hd.2.map tagVal) from rfl,
            lookupKey_setEntry, if_neg (fun hh => hmatch (h4.trans hh.symm))]
        · rfl
    rw [hstep]
    rfl

/-- C7: the submitted proxies map contains exactly the known protocols
{shadowsocks, vless, vmess, trojan} present in the catalog, each with its
default settings object, and the inbounds map binds each known protocol to
the normalised tag list of its last catalog entry; a vmess-only catalog
yields a vmess-only map (no shadowsocks); and a catalog with none of the
known protocols falls back to a bare shadowsocks-only map with an empty
inbounds map. -/
theorem c7_proxies_map (c : MCatalog) :
    ((∃ e ∈ c, strLower e.1 ∈ marzbanKnown) →
      ∀ p : String, p ∈ keysOf (marzbanBuildFromCatalog c).1 ↔
        p ∈ marzbanKnown ∧ ∃ e ∈ c, strLower e.1 = p) ∧
    (∀ pr ∈ (marzbanBuildFromCatalog c).1, pr.2 = marzbanDefaultCfg pr.1) ∧
    (∀ ts : List MTag, marzbanBuildFromCatalog [("vmess", ts)] =
        ([("vmess", MProxyCfg.vmess)], [("vmess", ts.map tagVal)]) ∧
      "shadowsocks" ∉ keysOf (marzbanBuildFromCatalog [("vmess", ts)]).1) ∧
    ((∀ e ∈ c, strLower e.1 ∉ marzbanKnown) →
      marzbanBuildFromCatalog c = ([("shadowsocks", MProxyCfg.ss)], [])) ∧
    (∀ p ∈ marzbanKnown,
      lookupKey p (marzbanBuildFromCatalog c).2 = lastTagsForAux p none c) := by
  refine ⟨?_, ?_, ?_, ?_, ?_⟩
  · rintro ⟨e0, he0, hk0⟩ p
    have hne : (c.foldl marzbanStep ([], [])).1 ≠ [] := by
      intro hnil
      have hmem : strLower e0.1 ∈ keysOf (c.foldl marzbanStep ([], [])).1 :=
        (keys_marzbanFold c ([], []) _).mpr (Or.inr ⟨hk0, e0, he0, rfl⟩)
      rw [hnil] at hmem
      simp [keysOf] at hmem
    simp only [marzbanBuildFromCatalog]
    rw [if_neg hne, keys_marzbanFold]
    simp [keysOf]
  · simp only [marzbanBuildFromCatalog]
    split_ifs with h
    · intro pr hpr
      simp only [List.mem_singleton] at hpr
      rw [hpr]; rfl
    · exact val_marzbanFold c ([], []) (by simp)
  · intro ts
    refine ⟨rfl, ?_⟩
    show "shadowsocks" ∉ keysOf [("vmess", MProxyCfg.vmess)]
    decide
  · intro hno
    have hnil : (c.foldl marzbanStep ([], [])).1 = [] := by
      cases h : (c.foldl marzbanStep ([], [])).1 with
      | nil => rfl
      | cons x xs =>
        have hx : x.1 ∈ keysOf (c.foldl marzbanStep ([], [])).1 := by
          rw [h]; simp [keysOf]
        rw [keys_marzbanFold] at hx
        rcases hx with h' | ⟨hk, e, he, hl⟩
        · simp [keysOf] at h'
        · exact absurd (hl ▸ hk) (hno e he)
    simp only [marzbanBuildFromCatalog]
    rw [if_pos hnil]
  · intro p hp
    by_cases hnil : (c.foldl marzbanStep ([], [])).1 = []
    · have hno : ∀ e ∈ c, strLower e.1 ∉ marzbanKnown := by
        intro e he hke
        have hmem : strLower e.1 ∈ keysOf (c.foldl marzbanStep ([], [])).1 :=
          (keys_marzbanFold c ([], []) _).mpr (Or.inr ⟨hke, e, he, rfl⟩)
        rw [hnil] at hmem
        simp [keysOf] at hmem
      have hnom : ∀ e ∈ c, strLower e.1 ≠ p := fun e he hh => hno e he (hh ▸ hp)
      simp only [marzbanBuildFromCatalog]
      rw [if_pos hnil, lastTagsForAux_const p c none hnom]
      rfl
    · simp only [marzbanBuildFromCatalog]
      rw [if_neg hnil]
      exact lookupKey_marzbanFold c ([], []) p hp

/-- Witness for C7: membership, recorded tags and the fallback, each at a
concrete catalog. -/
theorem c7_proxies_map_witness :
    ("vmess" ∈ keysOf (marzbanBuildFromCatalog [("VMess", [MTag.str "t"])]).1 ↔
      "vmess" ∈ marzbanKnown ∧
        ∃ e ∈ [("VMess", [MTag.str "t"])], strLower e.1 = "vmess") ∧
    marzbanBuildFromCatalog [("http", [MTag.str "h"])] =
      ([("shadowsocks", MProxyCfg.ss)], []) ∧
    lookupKey "vmess" (marzbanBuildFromCatalog [("VMess", [MTag.str "t"])]).2 =
      lastTagsForAux "vmess" none [("VMess", [MTag.str "t"])] :=
  ⟨(c7_proxies_map [("VMess", [MTag.str "t"])]).1
      ⟨("VMess", [MTag.str "t"]), by simp, by decide⟩ "vmess",
    (c7_proxies_map [("http", [MTag.str "h"])]).2.2.2.1 (by decide),
    (c7_proxies_map [("VMess", [MTag.str "t"])]).2.2.2.2 "vmess" (by decide)⟩

/-! ## C9 -/

lemma outlineLoopAux_length (base_url : String) (envs : ℕ → MCreateEnv) (data_gb : ℚ)
    (expiry_days : ℕ) (now : ℚ) (base_username : String) (key_count : ℕ) :
    ∀ (remaining i : ℕ) (st : MState) (created : List MCreateResult) (errors : List String),
      (outlineLoopAux base_url envs data_gb expiry_days now base_username key_count
        i remaining st created errors).created.length +
      (outlineLoopAux base_url envs data_gb expiry_days now base_username key_count
        i remaining st created errors).errors.length =
      created.length + errors.length + remaining := by
  intro remaining
  induction remaining with
  | zero => intro i st created errors; simp [outlineLoopAux]
  | succ rem ih =>
    intro i st created errors
    simp only [outlineLoopAux]
    cases hres : (marzbanCreateUser base_url (envs i) st
        (if key_count > 1 then base_username ++ "_" ++ decRepr i else base_username)
        data_gb expiry_days now).res with
    | error e =>
      rw [ih]
      simp only [List.length_append, List.length_singleton]
      omega
    | ok r =>
      cases r with
      | fail err =>
        rw [ih]
        simp only [List.length_append, List.length_singleton]
        omega
      | ok u su ls g ed ex =>
        rw [ih]
        simp only [List.length_append, List.length_singleton]
        omega

/-- C9: an N-key backend-B batch issues its sub-requests sequentially and
records exactly one per-item entry per key — successes plus failures total
N for every environment; and in a concrete 3-key run where key 2's creation
fails, the result set has exactly 2 success entries and 1 failure entry and
the later key is still created. -/
theorem c9_batch_per_item (base_url : String) (envs : ℕ → MCreateEnv) (st : MState)
    (base_username : String) (data_gb : ℚ) (expiry_days : ℕ) (now : ℚ) (key_count : ℕ) :
    ((createOutlineKeys base_url envs st base_username data_gb expiry_days now
        key_count).created.length +
      (createOutlineKeys base_url envs st base_username data_gb expiry_days now
        key_count).errors.length = key_count) ∧
    ((createOutlineKeys "http://b"
        (fun i => if i = 2 then
          ⟨⟨.ok (200, some "t"), .ok (200, some "t"),
            .ok ⟨200, .obj [("shadowsocks", [MTag.str "SS"])] none none, ""⟩,
            .ok ⟨200, .obj [("shadowsocks", [MTag.str "SS"])] none none, ""⟩⟩,
          ⟨.ok (200, some "t"), .ok (200, some "t"),
            .ok ⟨500, .nondict, "boom"⟩, .ok ⟨500, .nondict, "boom"⟩⟩⟩
        else
          ⟨⟨.ok (200, some "t"), .ok (200, some "t"),
            .ok ⟨200, .obj [("shadowsocks", [MTag.str "SS"])] none none, ""⟩,
            .ok ⟨200, .obj [("shadowsocks", [MTag.str "SS"])] none none, ""⟩⟩,
          ⟨.ok (200, some "t"), .ok (200, some "t"),
            .ok ⟨200, .obj [] (some "/sub/u") (some ["ss://key"]), ""⟩,
            .ok ⟨200, .obj [] (some "/sub/u") (some ["ss://key"]), ""⟩⟩⟩)
        ⟨some "tk"⟩ "user" 0 30 0 3).created.length = 2 ∧
      (createOutlineKeys "http://b"
        (fun i => if i = 2 then
          ⟨⟨.ok (200, some "t"), .ok (200, some "t"),
            .ok ⟨200, .obj [("shadowsocks", [MTag.str "SS"])] none none, ""⟩,
            .ok ⟨200, .obj [("shadowsocks", [MTag.str "SS"])] none none, ""⟩⟩,
          ⟨.ok (200, some "t"), .ok (200, some "t"),
            .ok ⟨500, .nondict, "boom"⟩, .ok ⟨500, .nondict, "boom"⟩⟩⟩
        else
          ⟨⟨.ok (200, some "t"), .ok (200, some "t"),
            .ok ⟨200, .obj [("shadowsocks", [MTag.str "SS"])] none none, ""⟩,
            .ok ⟨200, .obj [("shadowsocks", [MTag.str "SS"])] none none, ""⟩⟩,
          ⟨.ok (200, some "t"), .ok (200, some "t"),
            .ok ⟨200, .obj [] (some "/sub/u") (some ["ss://key"]), ""⟩,
            .ok ⟨200, .obj [] (some "/sub/u") (some ["ss://key"]), ""⟩⟩⟩)
        ⟨some "tk"⟩ "user" 0 30 0 3).errors = ["Key 2: HTTP 500: boom"]) := by
  constructor
  · have h := outlineLoopAux_length base_url envs data_gb expiry_days now base_username
      key_count key_count 1 st [] []
    simpa [createOutlineKeys] using h
  · constructor <;> rfl
